import Mathlib

/-!
Verification of the tiny-reporter tool (Rust) against its natural-language
specification.  The Rust sources are shallowly embedded: pure computations
become Lean functions, the file system becomes an explicit association list
from paths to file contents, the process world (spawned children, their exit
statuses and stdout bytes, lock files) becomes explicit environment records
threaded through the functions, and side effects (force-kill commands,
directory creation, lock attempts) become explicit action traces.

Sources embedded: src/exec.rs, src/storage.rs, src/util.rs, src/main.rs.
-/

set_option linter.unusedVariables false

/-! ## File-system model

A file system is an association list from paths to file contents.  Opening a
file with create+append and writing appends to the stored content, creating
the entry when absent (the semantics of `OpenOptions::new().create(true)
.append(true)` followed by a write). -/

abbrev FS := List (String × String)

def fsLookup : FS → String → Option String
  | [], _ => none
  | (p, c) :: rest, q => if p = q then some c else fsLookup rest q

def fsAppend : FS → String → String → FS
  | [], p, content => [(p, content)]
  | (q, c) :: rest, p, content =>
    if q = p then (q, c ++ content) :: rest else (q, c) :: fsAppend rest p content

/-! ## Generic string helpers (models of the Rust std functions used) -/

/-- Split a character list at every occurrence of the separator character,
keeping empty segments (the semantics of splitting file content on a newline
byte). -/
def splitOnChar (sep : Char) : List Char → List (List Char)
  | [] => [[]]
  | x :: xs =>
    let r := splitOnChar sep xs
    if x = sep then [] :: r
    else
      match r with
      | [] => [[x]]
      | y :: ys => (x :: y) :: ys

/-- Model of `Vec::join(sep)` from Rust: interleave the separator between the
elements. -/
def joinWith (sep : String) : List String → String
  | [] => ""
  | [x] => x
  | x :: y :: xs => x ++ sep ++ joinWith sep (y :: xs)

/-- ASCII lowercase of one character.  Models the effect of Rust
`str::to_lowercase` on the alphabet relevant here (format names); the full
Unicode case mapping agrees with this on ASCII input. -/
def charAsciiLower (c : Char) : Char :=
  if 'A' ≤ c ∧ c ≤ 'Z' then Char.ofNat (c.toNat + 32) else c

/-- Model of `String::to_lowercase` (see `charAsciiLower`). -/
def rustToLowercase (s : String) : String :=
  String.mk (s.data.map charAsciiLower)

/-- Whether a character has the Unicode White_Space property, the predicate
used by Rust `char::is_whitespace` and hence by `str::trim`. -/
def isRustWhitespace (c : Char) : Bool :=
  let n := c.toNat
  (0x09 ≤ n ∧ n ≤ 0x0D) ∨ n = 0x20 ∨ n = 0x85 ∨ n = 0xA0 ∨ n = 0x1680 ∨
    (0x2000 ≤ n ∧ n ≤ 0x200A) ∨ n = 0x2028 ∨ n = 0x2029 ∨ n = 0x202F ∨
    n = 0x205F ∨ n = 0x3000

/-- Model of Rust `str::trim`: drop leading and trailing whitespace. -/
def rustTrim (s : List Char) : List Char :=
  ((s.dropWhile isRustWhitespace).reverse.dropWhile isRustWhitespace).reverse

/-! ## UTF-8 decoding (models of `String::from_utf8_lossy` / `str::from_utf8`)

Rust validates UTF-8 per RFC 3629: the admissible second-byte range depends
on the first byte (surrogates and values above U+10FFFF are excluded), and
`from_utf8_lossy` replaces each maximal invalid subpart with one U+FFFD
replacement character.  Decoding consumes at least one byte per step, so a
fuel of `length + 1` never runs out. -/

def isCont (b : Nat) : Bool := 0x80 ≤ b && b ≤ 0xBF

/-- Lower bound of the admissible second byte, given the first byte. -/
def b2Lo (b0 : Nat) : Nat :=
  if b0 = 0xE0 then 0xA0 else if b0 = 0xF0 then 0x90 else 0x80

/-- Upper bound of the admissible second byte, given the first byte. -/
def b2Hi (b0 : Nat) : Nat :=
  if b0 = 0xED then 0x9F else if b0 = 0xF4 then 0x8F else 0xBF

def replChar : Char := Char.ofNat 0xFFFD

/-- Fuelled core of the lossy UTF-8 decoder (see module docstring). -/
def utf8LossyFuel : Nat → List Nat → List Char
  | 0, _ => []
  | _ + 1, [] => []
  | fuel + 1, b0 :: rest =>
    if b0 < 0x80 then Char.ofNat b0 :: utf8LossyFuel fuel rest
    else if 0xC2 ≤ b0 && b0 ≤ 0xDF then
      match rest with
      | [] => [replChar]
      | b1 :: rest1 =>
        if isCont b1 then
          Char.ofNat ((b0 - 0xC0) * 0x40 + (b1 - 0x80)) :: utf8LossyFuel fuel rest1
        else replChar :: utf8LossyFuel fuel rest
    else if 0xE0 ≤ b0 && b0 ≤ 0xEF then
      match rest with
      | [] => [replChar]
      | b1 :: rest1 =>
        if b2Lo b0 ≤ b1 && b1 ≤ b2Hi b0 then
          match rest1 with
          | [] => [replChar]
          | b2 :: rest2 =>
            if isCont b2 then
              Char.ofNat ((b0 - 0xE0) * 0x1000 + (b1 - 0x80) * 0x40 + (b2 - 0x80)) ::
                utf8LossyFuel fuel rest2
            else replChar :: utf8LossyFuel fuel rest1
        else replChar :: utf8LossyFuel fuel rest
    else if 0xF0 ≤ b0 && b0 ≤ 0xF4 then
      match rest with
      | [] => [replChar]
      | b1 :: rest1 =>
        if b2Lo b0 ≤ b1 && b1 ≤ b2Hi b0 then
          match rest1 with
          | [] => [replChar]
          | b2 :: rest2 =>
            if isCont b2 then
              match rest2 with
              | [] => [replChar]
              | b3 :: rest3 =>
                if isCont b3 then
                  Char.ofNat ((b0 - 0xF0) * 0x40000 + (b1 - 0x80) * 0x1000 +
                      (b2 - 0x80) * 0x40 + (b3 - 0x80)) :: utf8LossyFuel fuel rest3
                else replChar :: utf8LossyFuel fuel rest2
            else replChar :: utf8LossyFuel fuel rest1
        else replChar :: utf8LossyFuel fuel rest
    else replChar :: utf8LossyFuel fuel rest

/-- Model of `String::from_utf8_lossy` on a byte list. -/
def utf8Lossy (l : List Nat) : List Char := utf8LossyFuel (l.length + 1) l

/-- Fuelled core of the strict UTF-8 decoder: `none` on any invalid input. -/
def utf8StrictFuel : Nat → List Nat → Option (List Char)
  | 0, _ => none
  | _ + 1, [] => some []
  | fuel + 1, b0 :: rest =>
    if b0 < 0x80 then (utf8StrictFuel fuel rest).map (Char.ofNat b0 :: ·)
    else if 0xC2 ≤ b0 && b0 ≤ 0xDF then
      match rest with
      | b1 :: rest1 =>
        if isCont b1 then
          (utf8StrictFuel fuel rest1).map (Char.ofNat ((b0 - 0xC0) * 0x40 + (b1 - 0x80)) :: ·)
        else none
      | [] => none
    else if 0xE0 ≤ b0 && b0 ≤ 0xEF then
      match rest with
      | b1 :: b2 :: rest2 =>
        if (b2Lo b0 ≤ b1 && b1 ≤ b2Hi b0) && isCont b2 then
          (utf8StrictFuel fuel rest2).map
            (Char.ofNat ((b0 - 0xE0) * 0x1000 + (b1 - 0x80) * 0x40 + (b2 - 0x80)) :: ·)
        else none
      | _ => none
    else if 0xF0 ≤ b0 && b0 ≤ 0xF4 then
      match rest with
      | b1 :: b2 :: b3 :: rest3 =>
        if ((b2Lo b0 ≤ b1 && b1 ≤ b2Hi b0) && isCont b2) && isCont b3 then
          (utf8StrictFuel fuel rest3).map
            (Char.ofNat ((b0 - 0xF0) * 0x40000 + (b1 - 0x80) * 0x1000 +
              (b2 - 0x80) * 0x40 + (b3 - 0x80)) :: ·)
        else none
      | _ => none
    else none

/-- Model of `str::from_utf8` on a byte list: `none` iff not valid UTF-8. -/
def utf8Strict (l : List Nat) : Option (List Char) := utf8StrictFuel (l.length + 1) l

/-! ## Rust `Duration` debug formatting

`format!` with the debug specifier on a `std::time::Duration` picks the
largest fitting unit and prints the significant fractional digits without
trailing zeros (`5s`, `1.5s`, `100ms`, `10µs`, `15ns`).  Durations are
represented as total nanoseconds. -/

def digitChar (n : Nat) : Char := Char.ofNat (48 + n)

/-- Fractional digits of `frac` against a decreasing decimal divisor, stopping
once the remainder is zero (so trailing zeros are not printed). -/
def fracDigitsAux : Nat → Nat → Nat → List Char
  | 0, _, _ => []
  | k + 1, frac, divisor =>
    if frac = 0 then []
    else digitChar (frac / divisor) :: fracDigitsAux k (frac % divisor) (divisor / 10)

/-- Integer part plus significant fractional digits, as printed by the
`Duration` debug formatter. -/
def fmtDecimal (intPart frac divisor : Nat) : String :=
  let ds := fracDigitsAux 9 frac divisor
  if ds.isEmpty then toString intPart else toString intPart ++ "." ++ String.mk ds

/-- Model of the debug rendering of a `Duration` of `nanosTotal` nanoseconds. -/
def durationDebug (nanosTotal : Nat) : String :=
  let secs := nanosTotal / 1000000000
  let nanos := nanosTotal % 1000000000
  if secs > 0 then fmtDecimal secs nanos 100000000 ++ "s"
  else if nanos ≥ 1000000 then fmtDecimal (nanos / 1000000) (nanos % 1000000) 100000 ++ "ms"
  else if nanos ≥ 1000 then fmtDecimal (nanos / 1000) (nanos % 1000) 100 ++ "µs"
  else toString nanos ++ "ns"

/-! ## CSV and JSONL record serialization

Models of the external serializers as configured by the source: the `csv`
crate writer with its defaults (delimiter comma, terminator a newline byte,
quoting only when necessary, quotes doubled), and `serde_json::to_string` of
the `JsonRecord` struct followed by `writeln!`. -/

/-- The `csv` crate quotes a field iff it contains a quote, the delimiter or a
record-terminator byte. -/
def csvNeedsQuote (s : String) : Bool :=
  s.data.any (fun c => c = '"' ∨ c = ',' ∨ c = '\n' ∨ c = '\r')

def csvEscapeChar (c : Char) : List Char := if c = '"' then ['"', '"'] else [c]

/-- One CSV field as emitted by the `csv` crate writer. -/
def csvField (s : String) : String :=
  if csvNeedsQuote s then "\"" ++ String.mk (s.data.flatMap csvEscapeChar) ++ "\"" else s

/-- One CSV record line (three fields and the record terminator) as written by
`Writer::write_record([timestamp, value, exit_code.to_string()])`. -/
def csvRecordLine (timestamp value : String) (exit_code : Int) : String :=
  csvField timestamp ++ "," ++ csvField value ++ "," ++ csvField (toString exit_code) ++ "\n"

def hexLowerDigit (n : Nat) : Char :=
  if n < 10 then Char.ofNat (48 + n) else Char.ofNat (87 + n)

/-- JSON string escaping as performed by `serde_json`: quote, backslash, the
five short control escapes, and a lowercase hexadecimal escape for the other
control characters. -/
def jsonEscapeChar (c : Char) : List Char :=
  if c = '"' then ['\\', '"']
  else if c = '\\' then ['\\', '\\']
  else if c.toNat = 0x08 then ['\\', 'b']
  else if c.toNat = 0x09 then ['\\', 't']
  else if c.toNat = 0x0A then ['\\', 'n']
  else if c.toNat = 0x0C then ['\\', 'f']
  else if c.toNat = 0x0D then ['\\', 'r']
  else if c.toNat < 0x20 then
    ['\\', 'u', '0', '0', hexLowerDigit (c.toNat / 16), hexLowerDigit (c.toNat % 16)]
  else [c]

def jsonEscape (s : String) : String := String.mk (s.data.flatMap jsonEscapeChar)

/-- One JSONL line: `serde_json::to_string` of `JsonRecord \x7b timestamp,
value, exit_code \x7d` (fields serialized in declaration order), plus the
newline appended by `writeln!`. -/
def jsonRecordLine (timestamp value : String) (exit_code : Int) : String :=
  "\x7b\"timestamp\":\"" ++ jsonEscape timestamp ++ "\",\"value\":\"" ++ jsonEscape value ++
    "\",\"exit_code\":" ++ toString exit_code ++ "\x7d\n"

/-! ## Process world -/

/-- Build-target platform, selected in the source by `cfg!(target_os)`. -/
inductive Platform
  | windows
  | unixLike
deriving DecidableEq, Repr

/-- An external command issued by the runner (the kill commands spawned on a
timeout). -/
inductive ProcAction
  | runCommand (prog : String) (args : List String)
deriving DecidableEq, Repr

/-- The kill command the source runs on deadline expiry: `taskkill /PID p /T
/F` on Windows, `kill -9 p` elsewhere. -/
def killCmd : Platform → Nat → ProcAction
  | .windows, pid => .runCommand "taskkill" ["/PID", toString pid, "/T", "/F"]
  | .unixLike, pid => .runCommand "kill" ["-9", toString pid]

/-- Whether an action is a forceful termination of the process with the given
identifier: `kill -9` delivers SIGKILL, `taskkill` with `/F` forcefully
terminates. -/
def isForcefulKillOf (a : ProcAction) (pid : Nat) : Bool :=
  match a with
  | .runCommand "kill" args => args = ["-9", toString pid]
  | .runCommand "taskkill" args => args = ["/PID", toString pid, "/T", "/F"]
  | _ => false

/-- Whether the action also terminates the target's descendant process tree
(`taskkill /T`). -/
def killsProcessTree (a : ProcAction) : Bool :=
  match a with
  | .runCommand "taskkill" args => args.contains "/T"
  | _ => false

/-- Error kinds of the `io::Error` values the source constructs or receives. -/
inductive IoErrorKind
  | other
  | timedOut
  | invalidInput
  | osError
deriving DecidableEq, Repr

/-- An `io::Error`: a kind plus its display text (for errors built with
`io::Error::new(kind, msg)` the display text is `msg`; for operating-system
errors the environment supplies the full display text). -/
structure IoError where
  kind : IoErrorKind
  msg : String
deriving DecidableEq, Repr

/-- Display of an `io::Error` as used by `format!` with the error. -/
def IoError.display (e : IoError) : String := e.msg

instance {ε α : Type} [DecidableEq ε] [DecidableEq α] : DecidableEq (Except ε α) := fun x y =>
  match x, y with
  | .ok a, .ok b =>
    if h : a = b then isTrue (by rw [h]) else isFalse (by intro hh; cases hh; exact h rfl)
  | .error a, .error b =>
    if h : a = b then isTrue (by rw [h]) else isFalse (by intro hh; cases hh; exact h rfl)
  | .ok _, .error _ => isFalse (by intro hh; cases hh)
  | .error _, .ok _ => isFalse (by intro hh; cases hh)

/-- What the child process produced, as observed by `wait_with_output`:
`code = none` models a child killed by a signal (`status.code()` is `None`),
`stdout` holds the raw captured bytes. -/
structure ChildOutput where
  code : Option Int
  stdout : List Nat
deriving DecidableEq, Repr

/-- The environment's behaviour for one spawned child: whether the spawn
itself fails (with the OS error display text), the child's process id, the
time in nanoseconds until the waiting thread publishes its result, and that
result (a wait error's display text, or the child's output). -/
structure ChildExec where
  spawnErr : Option String
  pid : Nat
  completionTime : Nat
  waitResult : Except String ChildOutput
deriving DecidableEq, Repr

namespace Exec

/-- Embeds `run_shell_command` from src/exec.rs (lines 8-66).  The spawned
child and the timing of the waiting thread are supplied by the `ChildExec`
environment; the race between `rx.recv_timeout(to)` and the waiting thread is
resolved by comparing the child's completion time with the deadline.  Returns
the function's `io::Result<(String, i32)>` paired with the list of kill
commands issued. -/
def run_shell_command (plat : Platform) (child : ChildExec) (timeout : Option Nat) :
    Except IoError (String × Int) × List ProcAction :=
  match child.spawnErr with
  | some e => (.error ⟨.osError, e⟩, [])
  | none =>
    let sent : Except IoError (String × Int) :=
      match child.waitResult with
      | .error e => .error ⟨.other, "wait error: " ++ e⟩
      | .ok out =>
        .ok (String.mk (rustTrim (utf8Lossy out.stdout)), out.code.getD (-1))
    match timeout with
    | some tmo =>
      if child.completionTime ≤ tmo then (sent, [])
      else
        (.error ⟨.timedOut, "command timed out after " ++ durationDebug tmo⟩,
          [killCmd plat child.pid])
    | none => (sent, [])

end Exec

/-! ## Lock world

An advisory file-lock world: the set of lock-file paths currently held
exclusively by live processes, plus the display text of the operating-system
error produced when a `try_lock_exclusive` attempt finds the lock taken.  The
operating system serializes concurrent lock attempts, so two concurrent
attempts are modelled as the two possible sequential orders of atomic
attempts on this world. -/

structure LockWorld where
  held : List String
  contentionMsg : String
deriving DecidableEq, Repr

namespace Storage

/-- Embeds `write_csv_record` from src/storage.rs (lines 15-29).  The record
is written with `csv::Writer::write_record`, which appends one encoded record
line; the `has_headers(!file_exists)` builder option is computed exactly as in
the source, but in the `csv` crate that option only affects `serialize`-based
writes and has no effect on `write_record`, so it does not change the bytes
written. -/
def write_csv_record (fs : FS) (path timestamp value : String) (exit_code : Int) : FS :=
  let file_exists := (fsLookup fs path).isSome
  let _has_headers := !file_exists
  fsAppend fs path (csvRecordLine timestamp value exit_code)

/-- Embeds `write_jsonl_record` from src/storage.rs (lines 31-46):
`serde_json::to_string` of the record then `writeln!` to the file opened with
create+append. -/
def write_jsonl_record (fs : FS) (path timestamp value : String) (exit_code : Int) : FS :=
  fsAppend fs path (jsonRecordLine timestamp value exit_code)

/-- Embeds `ensure_data_dir` from src/storage.rs (lines 48-57): home directory
(or "." when undiscoverable) joined with ".tiny-reporter" and the job name;
`create_dir_all` is modelled as always succeeding. -/
def ensure_data_dir (home : Option String) (name : String) : String :=
  let base := match home with | some h => h | none => "."
  base ++ "/.tiny-reporter/" ++ name

/-- Embeds `acquire_lock` from src/storage.rs (lines 59-69): open the lock
file (creating it if absent) and attempt `fs2::FileExt::try_lock_exclusive`,
a non-blocking attempt that is an atomic step on the lock world: it either
acquires the lock or returns the contention error, never waits.  Returns the
`io::Result` together with the updated world. -/
def acquire_lock (w : LockWorld) (lock_path : String) : Except IoError Unit × LockWorld :=
  if lock_path ∈ w.held then
    (.error ⟨.other, "failed to acquire lock: " ++ w.contentionMsg⟩, w)
  else
    (.ok (), { w with held := lock_path :: w.held })

end Storage

namespace Util

/-- Embeds `record_file_path` from src/util.rs (lines 9-13).  `NaiveDate` is
represented by its `%Y-%m-%d` rendering (a bijection between dates and their
renderings, so date equality coincides with string equality); `Path::join` is
modelled by inserting the path separator. -/
def record_file_path (data_dir : String) (date : String) (fmt : String) : String :=
  let ext := if fmt = "csv" then "csv" else "jsonl"
  data_dir ++ "/" ++ date ++ "." ++ ext

end Util

namespace Main

/-- Embeds the private `run_shell_command` from src/main.rs (lines 73-130),
which duplicates src/exec.rs with `io::Error::new(io::ErrorKind::Other, ...)`
spelled out instead of `io::Error::other` (the same constructor). -/
def run_shell_command (plat : Platform) (child : ChildExec) (timeout : Option Nat) :
    Except IoError (String × Int) × List ProcAction :=
  match child.spawnErr with
  | some e => (.error ⟨.osError, e⟩, [])
  | none =>
    let sent : Except IoError (String × Int) :=
      match child.waitResult with
      | .error e => .error ⟨.other, "wait error: " ++ e⟩
      | .ok out =>
        .ok (String.mk (rustTrim (utf8Lossy out.stdout)), out.code.getD (-1))
    match timeout with
    | some tmo =>
      if child.completionTime ≤ tmo then (sent, [])
      else
        (.error ⟨.timedOut, "command timed out after " ++ durationDebug tmo⟩,
          [killCmd plat child.pid])
    | none => (sent, [])

/-- Embeds the private `write_csv_record` from src/main.rs (lines 132-139),
which duplicates src/storage.rs (see `Storage.write_csv_record` for the
`has_headers` note). -/
def write_csv_record (fs : FS) (path timestamp value : String) (exit_code : Int) : FS :=
  let file_exists := (fsLookup fs path).isSome
  let _has_headers := !file_exists
  fsAppend fs path (csvRecordLine timestamp value exit_code)

/-- Embeds the private `write_jsonl_record` from src/main.rs (lines 141-151). -/
def write_jsonl_record (fs : FS) (path timestamp value : String) (exit_code : Int) : FS :=
  fsAppend fs path (jsonRecordLine timestamp value exit_code)

/-- Embeds the inline record-file-path construction from src/main.rs (lines
217-220): `data_dir.join(format!("\x7b\x7d.\x7b\x7d", date_str, ext))` with
`ext` chosen from the format. -/
def record_file_path (data_dir : String) (date : String) (fmt : String) : String :=
  let ext := if fmt = "csv" then "csv" else "jsonl"
  data_dir ++ "/" ++ date ++ "." ++ ext

/-- Embeds the private `acquire_lock` from src/main.rs (lines 62-69): same
non-blocking exclusive attempt as src/storage.rs (the open options differ
only in read/write/append mode, which does not affect locking). -/
def acquire_lock (w : LockWorld) (lock_path : String) : Except IoError Unit × LockWorld :=
  if lock_path ∈ w.held then
    (.error ⟨.other, "failed to acquire lock: " ++ w.contentionMsg⟩, w)
  else
    (.ok (), { w with held := lock_path :: w.held })

/-- Embeds the private `ensure_data_dir` from src/main.rs (lines 153-162). -/
def ensure_data_dir (home : Option String) (name : String) : String :=
  let base := match home with | some h => h | none => "."
  base ++ "/.tiny-reporter/" ++ name

end Main

/-! ## Scheduler loop (src/main.rs `run`, lines 176-284)

The loop's interaction with the outside world per iteration — the timestamp
observed before the command runs, the spawned child's behaviour, the value of
the atomic shutdown flag at each of the two checks, and the calendar date
observed after the inter-tick sleep — is supplied as a finite script of
`TickEnv` records; the loop is the fold of one faithful iteration over that
script (the loop that out-runs its script simply stops being observed). -/

/-- The validated configuration the loop runs with: platform, data directory,
lowercased format (already checked to be csv or jsonl), optional interval and
optional per-run timeout in nanoseconds. -/
structure Cfg where
  plat : Platform
  dataDir : String
  fmt : String
  interval : Option Nat
  timeout : Option Nat
deriving DecidableEq, Repr

/-- Environment observations for one loop iteration: the `Local::now()`
timestamp string, the spawned child's behaviour, the shutdown flag at the
post-write check, the `Local::now().date_naive()` rendering observed after
the sleep, and the shutdown flag at the final check. -/
structure TickEnv where
  timestamp : String
  child : ChildExec
  runningAfterTick : Bool
  dateAfterSleep : String
  runningAfterSleep : Bool
deriving DecidableEq, Repr

/-- Mutable state of the loop: the stored rotation date (its `%Y-%m-%d`
rendering) and the file system. -/
structure LoopState where
  currentDate : String
  fs : FS
deriving DecidableEq, Repr

namespace Main

/-- The format dispatch in the loop body (src/main.rs lines 226-239): csv
records go through `write_csv_record`, everything else (jsonl, the only other
validated format) through `write_jsonl_record`. -/
def writeOutcome (fmt : String) (fs : FS) (path timestamp value : String) (exit_code : Int) :
    FS :=
  if fmt = "csv" then write_csv_record fs path timestamp value exit_code
  else write_jsonl_record fs path timestamp value exit_code

/-- One tick of the loop (src/main.rs lines 217-241): compute the destination
file from the stored rotation date, run the command, and record either the
trimmed output with its exit code or `error: ...` with exit code `-1`. -/
def doTick (cfg : Cfg) (st : LoopState) (env : TickEnv) : LoopState :=
  let path := record_file_path cfg.dataDir st.currentDate cfg.fmt
  match (run_shell_command cfg.plat env.child cfg.timeout).fst with
  | .ok (output, exit_code) =>
    { st with fs := writeOutcome cfg.fmt st.fs path env.timestamp output exit_code }
  | .error e =>
    { st with fs := writeOutcome cfg.fmt st.fs path env.timestamp ("error: " ++ e.display) (-1) }

/-- The rotation-date update after the sleep (src/main.rs lines 272-276):
store the newly observed date when it differs. -/
def rotateDate (st : LoopState) (nowDate : String) : LoopState :=
  if nowDate ≠ st.currentDate then { st with currentDate := nowDate } else st

/-- The scheduler loop (src/main.rs lines 216-282) folded over the
environment script: tick, then break when no interval is configured, break
when the shutdown flag was cleared, otherwise sleep (observed through the
script), update the rotation date, and re-check the flag before looping. -/
def runLoop (cfg : Cfg) : LoopState → List TickEnv → LoopState
  | st, [] => st
  | st, env :: rest =>
    let st1 := doTick cfg st env
    if cfg.interval.isNone then st1
    else if env.runningAfterTick = false then st1
    else
      let st2 := rotateDate st1 env.dateAfterSleep
      if env.runningAfterSleep = false then st2
      else runLoop cfg st2 rest

/-- The payload and exit code the tick records, as a function of the runner's
result (success: the output and its code; failure: `error: ...` and `-1`).
Statement-level companion of `doTick`. -/
def tickOutcome (cfg : Cfg) (env : TickEnv) : String × Int :=
  match (run_shell_command cfg.plat env.child cfg.timeout).fst with
  | .ok (output, exit_code) => (output, exit_code)
  | .error e => ("error: " ++ e.display, -1)

/-- The file a tick writes to: derived from the stored rotation date.
Statement-level companion of `doTick`. -/
def tickFile (cfg : Cfg) (st : LoopState) : String :=
  record_file_path cfg.dataDir st.currentDate cfg.fmt

/-- Options of the `run` subcommand (src/main.rs lines 30-48). -/
structure RunOpts where
  name : String
  every : Option String
  format : String
  timeout : Option String
  cmd : List String
deriving DecidableEq, Repr

/-- Setup-phase side effects of `run`, in order of occurrence. -/
inductive Effect
  | mkdir (dir : String)
  | lockAttempt (path : String)
deriving DecidableEq, Repr

/-- The world `run` executes in: platform, home directory (None when
undiscoverable), the lock world, the initial rotation date rendering, the
initial file system, and the per-tick environment script. -/
structure RunWorld where
  plat : Platform
  home : Option String
  locks : LockWorld
  initialDate : String
  fs : FS
  ticks : List TickEnv
deriving DecidableEq, Repr

/-- Embeds `run` from src/main.rs (lines 176-284), parameterized over the
external duration-string parser (`humantime::parse_duration`, an external
collaborator).  Returns the `io::Result<()>`, the ordered setup effects, and
the final file system. -/
def run (parseDur : String → Except String Nat) (opts : RunOpts) (w : RunWorld) :
    Except IoError Unit × List Effect × FS :=
  let command_str := joinWith " " opts.cmd
  let intervalR : Except IoError (Option Nat) :=
    match opts.every with
    | none => .ok none
    | some s =>
      match parseDur s with
      | .ok d => .ok (some d)
      | .error e =>
        .error ⟨.invalidInput, "invalid interval \x27" ++ s ++ "\x27: " ++ e⟩
  match intervalR with
  | .error e => (.error e, [], w.fs)
  | .ok interval =>
    let timeoutR : Except IoError (Option Nat) :=
      match opts.timeout with
      | none => .ok none
      | some s =>
        match parseDur s with
        | .ok d => .ok (some d)
        | .error e =>
          .error ⟨.invalidInput, "invalid timeout \x27" ++ s ++ "\x27: " ++ e⟩
    match timeoutR with
    | .error e => (.error e, [], w.fs)
    | .ok timeout_dur =>
      let fmt := rustToLowercase opts.format
      if fmt ≠ "csv" ∧ fmt ≠ "jsonl" then
        (.error ⟨.invalidInput, "format must be \x27csv\x27 or \x27jsonl\x27"⟩, [], w.fs)
      else
        let data_dir := ensure_data_dir w.home opts.name
        let lock_path := data_dir ++ "/" ++ opts.name ++ ".lock"
        match acquire_lock w.locks lock_path with
        | (.error e, _) =>
          (.error e, [.mkdir data_dir, .lockAttempt lock_path], w.fs)
        | (.ok _, _) =>
          let final := runLoop ⟨w.plat, data_dir, fmt, interval, timeout_dur⟩
            ⟨w.initialDate, w.fs⟩ w.ticks
          (.ok (), [.mkdir data_dir, .lockAttempt lock_path], final.fs)

/-- Embeds `main` (src/main.rs lines 164-174): a `run` error is reported and
the process exits with status 1, otherwise the process exits with status 0. -/
def mainExitCode (parseDur : String → Except String Nat) (opts : RunOpts) (w : RunWorld) :
    Nat :=
  match (run parseDur opts w).fst with
  | .error _ => 1
  | .ok _ => 0

end Main

/-! ## General lemmas -/

theorem string_data_append (s t : String) : (s ++ t).data = s.data ++ t.data := rfl

theorem string_eq_of_data_eq {s t : String} (h : s.data = t.data) : s = t := by
  cases s; cases t; exact congrArg String.mk h

/-- Distinct date renderings give distinct record-file paths. -/
theorem record_file_path_date_injective {dir fmt d1 d2 : String}
    (h : Main.record_file_path dir d1 fmt = Main.record_file_path dir d2 fmt) : d1 = d2 := by
  unfold Main.record_file_path at h
  have h2 := congrArg String.data h
  simp only [string_data_append, List.append_assoc] at h2
  have h3 := List.append_cancel_left h2
  have h4 := List.append_cancel_left h3
  exact string_eq_of_data_eq (List.append_cancel_right h4)

/-- One tick changes only the file system, appending the tick's outcome to the
file derived from the stored rotation date. -/
theorem doTick_eq (cfg : Cfg) (st : LoopState) (env : TickEnv) :
    Main.doTick cfg st env =
      ⟨st.currentDate,
        Main.writeOutcome cfg.fmt st.fs (Main.tickFile cfg st) env.timestamp
          (Main.tickOutcome cfg env).fst (Main.tickOutcome cfg env).snd⟩ := by
  cases st
  unfold Main.doTick Main.tickOutcome Main.tickFile
  rcases hr : (Main.run_shell_command cfg.plat env.child cfg.timeout).fst with e | ⟨o, c⟩ <;>
    simp [hr]

/-- Definitional unfolding of one loop iteration. -/
theorem runLoop_cons (cfg : Cfg) (st : LoopState) (env : TickEnv) (rest : List TickEnv) :
    Main.runLoop cfg st (env :: rest) =
      (let st1 := Main.doTick cfg st env
       if cfg.interval.isNone then st1
       else if env.runningAfterTick = false then st1
       else
         let st2 := Main.rotateDate st1 env.dateAfterSleep
         if env.runningAfterSleep = false then st2
         else Main.runLoop cfg st2 rest) := rfl

/-! ## Claim theorems -/

/-- C3: for every call to `run_shell_command` with a deadline given, if the
deadline expires before the child completes, the function issues the
platform's forceful kill command against the child process (on Windows also
its process tree, via `taskkill /T`) and returns a TimedOut failure whose
message carries the elapsed deadline value. -/
theorem timeout_kills_child_and_reports_deadline (plat : Platform) (child : ChildExec)
    (tmo : Nat) (hspawn : child.spawnErr = none) (hlate : tmo < child.completionTime) :
    Exec.run_shell_command plat child (some tmo) =
      (.error ⟨.timedOut, "command timed out after " ++ durationDebug tmo⟩,
        [killCmd plat child.pid])
    ∧ isForcefulKillOf (killCmd plat child.pid) child.pid = true
    ∧ (plat = .windows → killsProcessTree (killCmd plat child.pid) = true) := by
  refine ⟨?_, ?_, ?_⟩
  · unfold Exec.run_shell_command
    rw [hspawn]
    simp [Nat.not_le.mpr hlate]
  · cases plat <;> simp [killCmd, isForcefulKillOf]
  · intro hw
    subst hw
    simp [killCmd, killsProcessTree]

theorem timeout_kills_child_and_reports_deadline_witness :
    Exec.run_shell_command .unixLike ⟨none, 7, 10000000000, .ok ⟨some 0, []⟩⟩ (some 5000000000) =
      (.error ⟨.timedOut, "command timed out after " ++ durationDebug 5000000000⟩,
        [killCmd .unixLike 7])
    ∧ isForcefulKillOf (killCmd .unixLike 7) 7 = true
    ∧ (Platform.unixLike = .windows → killsProcessTree (killCmd .unixLike 7) = true) :=
  timeout_kills_child_and_reports_deadline .unixLike ⟨none, 7, 10000000000, .ok ⟨some 0, []⟩⟩
    5000000000 rfl (by decide)

/-- C7: for every call where the child completes before the deadline (or no
deadline is given), `run_shell_command` returns the child's stdout decoded
and trimmed of leading and trailing whitespace together with the child's exit
code, and a child killed by a signal (no exit code) is reported as `-1`. -/
theorem natural_completion_returns_trimmed_stdout (plat : Platform) (child : ChildExec)
    (out : ChildOutput) (otmo : Option Nat)
    (hspawn : child.spawnErr = none) (hw : child.waitResult = .ok out)
    (hin : ∀ tmo, otmo = some tmo → child.completionTime ≤ tmo) :
    Exec.run_shell_command plat child otmo =
      (.ok (String.mk (rustTrim (utf8Lossy out.stdout)), out.code.getD (-1)), [])
    ∧ (out.code = none →
        Exec.run_shell_command plat child otmo =
          (.ok (String.mk (rustTrim (utf8Lossy out.stdout)), -1), [])) := by
  have h1 : Exec.run_shell_command plat child otmo =
      (.ok (String.mk (rustTrim (utf8Lossy out.stdout)), out.code.getD (-1)), []) := by
    unfold Exec.run_shell_command
    rw [hspawn, hw]
    cases otmo with
    | none => simp
    | some tmo => simp [hin tmo rfl]
  refine ⟨h1, fun hc => ?_⟩
  rw [h1, hc]
  rfl

theorem natural_completion_returns_trimmed_stdout_witness :
    Exec.run_shell_command .unixLike ⟨none, 3, 10, .ok ⟨none, [32, 104, 105, 32]⟩⟩ none =
      (.ok (String.mk (rustTrim (utf8Lossy [32, 104, 105, 32])), Option.getD none (-1)), [])
    ∧ ((none : Option Int) = none →
        Exec.run_shell_command .unixLike ⟨none, 3, 10, .ok ⟨none, [32, 104, 105, 32]⟩⟩ none =
          (.ok (String.mk (rustTrim (utf8Lossy [32, 104, 105, 32])), -1), [])) :=
  natural_completion_returns_trimmed_stdout .unixLike
    ⟨none, 3, 10, .ok ⟨none, [32, 104, 105, 32]⟩⟩ ⟨none, [32, 104, 105, 32]⟩ none rfl rfl
    (fun tmo h => nomatch h)

/-- C9: for every child whose stdout bytes are not valid UTF-8, the success
path of `run_shell_command` still returns a payload string (the lossy
decoding, with invalid sequences replaced) rather than failing on the byte
content. -/
theorem invalid_utf8_stdout_still_succeeds (plat : Platform) (child : ChildExec)
    (out : ChildOutput) (otmo : Option Nat)
    (hspawn : child.spawnErr = none) (hw : child.waitResult = .ok out)
    (hin : ∀ tmo, otmo = some tmo → child.completionTime ≤ tmo)
    (hbad : utf8Strict out.stdout = none) :
    (Exec.run_shell_command plat child otmo).fst =
      .ok (String.mk (rustTrim (utf8Lossy out.stdout)), out.code.getD (-1)) := by
  unfold Exec.run_shell_command
  rw [hspawn, hw]
  cases otmo with
  | none => simp
  | some tmo => simp [hin tmo rfl]

theorem invalid_utf8_stdout_still_succeeds_witness :
    utf8Strict [0xFF] = none
    ∧ (Exec.run_shell_command .unixLike ⟨none, 3, 10, .ok ⟨some 0, [0xFF]⟩⟩ none).fst =
        .ok (String.mk (rustTrim (utf8Lossy [0xFF])), Option.getD (some 0) (-1)) :=
  ⟨by decide,
    invalid_utf8_stdout_still_succeeds .unixLike ⟨none, 3, 10, .ok ⟨some 0, [0xFF]⟩⟩
      ⟨some 0, [0xFF]⟩ none rfl rfl (fun tmo h => nomatch h) (by decide)⟩

/-- C4: the exclusive-lock attempt is non-blocking — it is a single atomic
step that either acquires the lock or returns the contention failure at once.
When another live instance already holds the lock the attempt fails with the
Lock Contention Failure, and of the two serialization orders of two
concurrent attempts on a free lock, the first succeeds and the second fails:
exactly one succeeds, the other fails, neither waits. -/
theorem acquire_lock_nonblocking_exclusive (w : LockWorld) (lock_path : String) :
    (lock_path ∈ w.held →
      Storage.acquire_lock w lock_path =
        (.error ⟨.other, "failed to acquire lock: " ++ w.contentionMsg⟩, w))
    ∧ (lock_path ∉ w.held →
        (Storage.acquire_lock w lock_path).fst = .ok ()
        ∧ (Storage.acquire_lock (Storage.acquire_lock w lock_path).snd lock_path).fst =
            .error ⟨.other, "failed to acquire lock: " ++ w.contentionMsg⟩) := by
  constructor
  · intro h
    simp [Storage.acquire_lock, h]
  · intro h
    constructor
    · simp [Storage.acquire_lock, h]
    · simp [Storage.acquire_lock, h]

theorem acquire_lock_nonblocking_exclusive_witness :
    (Storage.acquire_lock ⟨[], "Resource temporarily unavailable"⟩ "/d/demo.lock").fst = .ok ()
    ∧ (Storage.acquire_lock
        (Storage.acquire_lock ⟨[], "Resource temporarily unavailable"⟩ "/d/demo.lock").snd
        "/d/demo.lock").fst =
        .error ⟨.other, "failed to acquire lock: " ++ "Resource temporarily unavailable"⟩ :=
  (acquire_lock_nonblocking_exclusive ⟨[], "Resource temporarily unavailable"⟩
    "/d/demo.lock").2 (by decide)

/-- C2 counter-evidence: writing two CSV records through `write_csv_record`
at a fresh path yields a file holding exactly the two data record lines and
no header line.  The source passes `has_headers(!file_exists)` to the writer
builder, but the `csv` crate honours that option only for `serialize`-based
writes; `write_record` never emits a header, so the claimed header line is
never written.  Each written line does have three comma-separated fields with
the exit code third. -/
theorem csv_fresh_path_two_records_have_no_header :
    fsLookup
      (Storage.write_csv_record
        (Storage.write_csv_record [] "/data/2025-06-01.csv" "ts1" "hello" 0)
        "/data/2025-06-01.csv" "ts2" "world" 0)
      "/data/2025-06-01.csv" = some "ts1,hello,0\nts2,world,0\n"
    ∧ (splitOnChar '\n' ("ts1,hello,0\nts2,world,0\n").data).map String.mk =
        ["ts1,hello,0", "ts2,world,0", ""]
    ∧ (splitOnChar ',' ("ts1,hello,0").data).map String.mk = ["ts1", "hello", "0"]
    ∧ (splitOnChar ',' ("ts2,world,0").data).map String.mk = ["ts2", "world", "0"] := by
  refine ⟨?_, ?_, ?_, ?_⟩ <;> decide

/-- C1: on any tick where the runner fails, the loop writes a record whose
payload is `error:` followed by the failure's display text and whose exit
code is `-1` to the current log file, and (with an interval configured and no
shutdown requested) continues with the following ticks instead of returning
the error. -/
theorem runner_failure_recorded_loop_continues (cfg : Cfg) (st : LoopState) (env : TickEnv)
    (rest : List TickEnv) (e : IoError) (iv : Nat)
    (hfail : (Main.run_shell_command cfg.plat env.child cfg.timeout).fst = .error e)
    (hiv : cfg.interval = some iv)
    (h1 : env.runningAfterTick = true) (h2 : env.runningAfterSleep = true) :
    (Main.doTick cfg st env).fs =
      Main.writeOutcome cfg.fmt st.fs (Main.tickFile cfg st) env.timestamp
        ("error: " ++ e.display) (-1)
    ∧ Main.runLoop cfg st (env :: rest) =
        Main.runLoop cfg (Main.rotateDate (Main.doTick cfg st env) env.dateAfterSleep) rest := by
  constructor
  · unfold Main.doTick Main.tickFile
    rw [hfail]
  · rw [runLoop_cons]
    simp [hiv, h1, h2]

theorem runner_failure_recorded_loop_continues_witness :
    (Main.doTick ⟨.unixLike, "d", "csv", some 60, none⟩ ⟨"2025-06-01", []⟩
        ⟨"T1", ⟨some "boom", 1, 0, .error "x"⟩, true, "2025-06-01", true⟩).fs =
      Main.writeOutcome "csv" []
        (Main.tickFile ⟨.unixLike, "d", "csv", some 60, none⟩ ⟨"2025-06-01", []⟩) "T1"
        ("error: " ++ IoError.display ⟨.osError, "boom"⟩) (-1)
    ∧ Main.runLoop ⟨.unixLike, "d", "csv", some 60, none⟩ ⟨"2025-06-01", []⟩
        [⟨"T1", ⟨some "boom", 1, 0, .error "x"⟩, true, "2025-06-01", true⟩] =
        Main.runLoop ⟨.unixLike, "d", "csv", some 60, none⟩
          (Main.rotateDate
            (Main.doTick ⟨.unixLike, "d", "csv", some 60, none⟩ ⟨"2025-06-01", []⟩
              ⟨"T1", ⟨some "boom", 1, 0, .error "x"⟩, true, "2025-06-01", true⟩)
            "2025-06-01") [] :=
  runner_failure_recorded_loop_continues ⟨.unixLike, "d", "csv", some 60, none⟩
    ⟨"2025-06-01", []⟩ ⟨"T1", ⟨some "boom", 1, 0, .error "x"⟩, true, "2025-06-01", true⟩ []
    ⟨.osError, "boom"⟩ 60 rfl rfl rfl rfl

/-- C6: with no interval configured, the loop performs exactly one tick — one
command execution recorded as one write to the file of the stored date — and
terminates, whatever the tick's outcome was (the remaining script is never
observed). -/
theorem run_once_performs_single_tick (cfg : Cfg) (st : LoopState) (env : TickEnv)
    (rest : List TickEnv) (hiv : cfg.interval = none) :
    Main.runLoop cfg st (env :: rest) = Main.doTick cfg st env
    ∧ Main.doTick cfg st env =
        ⟨st.currentDate,
          Main.writeOutcome cfg.fmt st.fs (Main.tickFile cfg st) env.timestamp
            (Main.tickOutcome cfg env).fst (Main.tickOutcome cfg env).snd⟩ := by
  constructor
  · rw [runLoop_cons]
    simp [hiv]
  · exact doTick_eq cfg st env

theorem run_once_performs_single_tick_witness :
    Main.runLoop ⟨.unixLike, "d", "csv", none, none⟩ ⟨"2025-06-01", []⟩
        [⟨"T1", ⟨none, 1, 0, .ok ⟨some 0, []⟩⟩, true, "2025-06-01", true⟩,
          ⟨"T2", ⟨none, 1, 0, .ok ⟨some 0, []⟩⟩, true, "2025-06-01", true⟩] =
      Main.doTick ⟨.unixLike, "d", "csv", none, none⟩ ⟨"2025-06-01", []⟩
        ⟨"T1", ⟨none, 1, 0, .ok ⟨some 0, []⟩⟩, true, "2025-06-01", true⟩
    ∧ Main.doTick ⟨.unixLike, "d", "csv", none, none⟩ ⟨"2025-06-01", []⟩
        ⟨"T1", ⟨none, 1, 0, .ok ⟨some 0, []⟩⟩, true, "2025-06-01", true⟩ =
        ⟨"2025-06-01",
          Main.writeOutcome "csv" []
            (Main.tickFile ⟨.unixLike, "d", "csv", none, none⟩ ⟨"2025-06-01", []⟩) "T1"
            (Main.tickOutcome ⟨.unixLike, "d", "csv", none, none⟩
              ⟨"T1", ⟨none, 1, 0, .ok ⟨some 0, []⟩⟩, true, "2025-06-01", true⟩).fst
            (Main.tickOutcome ⟨.unixLike, "d", "csv", none, none⟩
              ⟨"T1", ⟨none, 1, 0, .ok ⟨some 0, []⟩⟩, true, "2025-06-01", true⟩).snd⟩ :=
  run_once_performs_single_tick ⟨.unixLike, "d", "csv", none, none⟩ ⟨"2025-06-01", []⟩
    ⟨"T1", ⟨none, 1, 0, .ok ⟨some 0, []⟩⟩, true, "2025-06-01", true⟩
    [⟨"T2", ⟨none, 1, 0, .ok ⟨some 0, []⟩⟩, true, "2025-06-01", true⟩] rfl

/-- C5: when the date observed after the inter-tick sleep differs from the
stored rotation date, the boundary tick's own record still went to the old
date's file, the stored date is then updated, and the next tick's record is
written to the file named for the new date — a different path from the old
date's file. -/
theorem rotation_switches_file_at_boundary_tick (cfg : Cfg) (st : LoopState) (env1 : TickEnv)
    (rest : List TickEnv) (iv : Nat)
    (hiv : cfg.interval = some iv) (h1 : env1.runningAfterTick = true)
    (h2 : env1.runningAfterSleep = true) (hchg : env1.dateAfterSleep ≠ st.currentDate) :
    Main.doTick cfg st env1 =
      ⟨st.currentDate,
        Main.writeOutcome cfg.fmt st.fs (Main.record_file_path cfg.dataDir st.currentDate cfg.fmt)
          env1.timestamp (Main.tickOutcome cfg env1).fst (Main.tickOutcome cfg env1).snd⟩
    ∧ Main.runLoop cfg st (env1 :: rest) =
        Main.runLoop cfg ⟨env1.dateAfterSleep, (Main.doTick cfg st env1).fs⟩ rest
    ∧ Main.tickFile cfg ⟨env1.dateAfterSleep, (Main.doTick cfg st env1).fs⟩ =
        Main.record_file_path cfg.dataDir env1.dateAfterSleep cfg.fmt
    ∧ Main.record_file_path cfg.dataDir env1.dateAfterSleep cfg.fmt ≠
        Main.record_file_path cfg.dataDir st.currentDate cfg.fmt := by
  have hrot : Main.rotateDate (Main.doTick cfg st env1) env1.dateAfterSleep =
      ⟨env1.dateAfterSleep, (Main.doTick cfg st env1).fs⟩ := by
    unfold Main.rotateDate
    rw [doTick_eq cfg st env1]
    simp [hchg]
  refine ⟨doTick_eq cfg st env1, ?_, rfl, ?_⟩
  · rw [runLoop_cons]
    simp [hiv, h1, h2, hrot]
  · intro hp
    exact hchg (record_file_path_date_injective hp)

theorem rotation_switches_file_at_boundary_tick_witness :
    Main.doTick ⟨.unixLike, "d", "csv", some 60, none⟩ ⟨"2025-06-01", []⟩
        ⟨"T1", ⟨none, 1, 0, .ok ⟨some 0, []⟩⟩, true, "2025-06-02", true⟩ =
      ⟨"2025-06-01",
        Main.writeOutcome "csv" [] (Main.record_file_path "d" "2025-06-01" "csv") "T1"
          (Main.tickOutcome ⟨.unixLike, "d", "csv", some 60, none⟩
            ⟨"T1", ⟨none, 1, 0, .ok ⟨some 0, []⟩⟩, true, "2025-06-02", true⟩).fst
          (Main.tickOutcome ⟨.unixLike, "d", "csv", some 60, none⟩
            ⟨"T1", ⟨none, 1, 0, .ok ⟨some 0, []⟩⟩, true, "2025-06-02", true⟩).snd⟩
    ∧ Main.runLoop ⟨.unixLike, "d", "csv", some 60, none⟩ ⟨"2025-06-01", []⟩
        [⟨"T1", ⟨none, 1, 0, .ok ⟨some 0, []⟩⟩, true, "2025-06-02", true⟩] =
        Main.runLoop ⟨.unixLike, "d", "csv", some 60, none⟩
          ⟨"2025-06-02",
            (Main.doTick ⟨.unixLike, "d", "csv", some 60, none⟩ ⟨"2025-06-01", []⟩
              ⟨"T1", ⟨none, 1, 0, .ok ⟨some 0, []⟩⟩, true, "2025-06-02", true⟩).fs⟩ []
    ∧ Main.tickFile ⟨.unixLike, "d", "csv", some 60, none⟩
        ⟨"2025-06-02",
          (Main.doTick ⟨.unixLike, "d", "csv", some 60, none⟩ ⟨"2025-06-01", []⟩
            ⟨"T1", ⟨none, 1, 0, .ok ⟨some 0, []⟩⟩, true, "2025-06-02", true⟩).fs⟩ =
        Main.record_file_path "d" "2025-06-02" "csv"
    ∧ Main.record_file_path "d" "2025-06-02" "csv" ≠
        Main.record_file_path "d" "2025-06-01" "csv" :=
  rotation_switches_file_at_boundary_tick ⟨.unixLike, "d", "csv", some 60, none⟩
    ⟨"2025-06-01", []⟩ ⟨"T1", ⟨none, 1, 0, .ok ⟨some 0, []⟩⟩, true, "2025-06-02", true⟩ []
    60 rfl rfl rfl (by decide)

/-- C8: when the interval string or the timeout string fails to parse, or the
format is neither csv nor jsonl, `run` returns an error with no setup effect
performed — no directory creation, no lock attempt, file system untouched —
and the process exits with a non-zero status. -/
theorem config_failure_exits_before_lock_and_writes
    (parseDur : String → Except String Nat) (opts : Main.RunOpts) (w : Main.RunWorld)
    (h : (∃ s e, opts.every = some s ∧ parseDur s = .error e)
       ∨ (∃ s e, opts.timeout = some s ∧ parseDur s = .error e)
       ∨ (rustToLowercase opts.format ≠ "csv" ∧ rustToLowercase opts.format ≠ "jsonl")) :
    (∃ e, (Main.run parseDur opts w).fst = .error e)
    ∧ (Main.run parseDur opts w).snd.fst = []
    ∧ (Main.run parseDur opts w).snd.snd = w.fs
    ∧ Main.mainExitCode parseDur opts w = 1 := by
  have key : ∃ e, Main.run parseDur opts w = (.error e, [], w.fs) := by
    rcases h with ⟨s, e, hs, hp⟩ | ⟨s, e, hs, hp⟩ | ⟨hf1, hf2⟩
    · exact ⟨_, by unfold Main.run; simp only [hs, hp]; rfl⟩
    · rcases he : opts.every with _ | s2
      · exact ⟨_, by unfold Main.run; simp only [he, hs, hp]; rfl⟩
      · rcases hp2 : parseDur s2 with e2 | d2
        · exact ⟨_, by unfold Main.run; simp only [he, hp2]; rfl⟩
        · exact ⟨_, by unfold Main.run; simp only [he, hp2, hs, hp]; rfl⟩
    · have hfmt : (rustToLowercase opts.format ≠ "csv" ∧
          rustToLowercase opts.format ≠ "jsonl") := ⟨hf1, hf2⟩
      rcases he : opts.every with _ | s2
      · rcases ht : opts.timeout with _ | s3
        · exact ⟨_, by unfold Main.run; simp only [he, ht]; rw [if_pos hfmt]⟩
        · rcases hp3 : parseDur s3 with e3 | d3
          · exact ⟨_, by unfold Main.run; simp only [he, ht, hp3]; rfl⟩
          · exact ⟨_, by unfold Main.run; simp only [he, ht, hp3]; rw [if_pos hfmt]⟩
      · rcases hp2 : parseDur s2 with e2 | d2
        · exact ⟨_, by unfold Main.run; simp only [he, hp2]; rfl⟩
        · rcases ht : opts.timeout with _ | s3
          · exact ⟨_, by unfold Main.run; simp only [he, hp2, ht]; rw [if_pos hfmt]⟩
          · rcases hp3 : parseDur s3 with e3 | d3
            · exact ⟨_, by unfold Main.run; simp only [he, hp2, ht, hp3]; rfl⟩
            · exact ⟨_, by unfold Main.run; simp only [he, hp2, ht, hp3]; rw [if_pos hfmt]⟩
  obtain ⟨e, hrun⟩ := key
  refine ⟨⟨e, by rw [hrun]⟩, by rw [hrun], by rw [hrun], ?_⟩
  unfold Main.mainExitCode
  rw [hrun]

theorem config_failure_exits_before_lock_and_writes_witness :
    (∃ e, (Main.run (fun _ => .error "bad") ⟨"job", some "x", "csv", none, ["echo"]⟩
        ⟨.unixLike, some "/h", ⟨[], "m"⟩, "2025-06-01", [], []⟩).fst = .error e)
    ∧ (Main.run (fun _ => .error "bad") ⟨"job", some "x", "csv", none, ["echo"]⟩
        ⟨.unixLike, some "/h", ⟨[], "m"⟩, "2025-06-01", [], []⟩).snd.fst = []
    ∧ (Main.run (fun _ => .error "bad") ⟨"job", some "x", "csv", none, ["echo"]⟩
        ⟨.unixLike, some "/h", ⟨[], "m"⟩, "2025-06-01", [], []⟩).snd.snd = []
    ∧ Main.mainExitCode (fun _ => .error "bad") ⟨"job", some "x", "csv", none, ["echo"]⟩
        ⟨.unixLike, some "/h", ⟨[], "m"⟩, "2025-06-01", [], []⟩ = 1 :=
  config_failure_exits_before_lock_and_writes (fun _ => .error "bad")
    ⟨"job", some "x", "csv", none, ["echo"]⟩
    ⟨.unixLike, some "/h", ⟨[], "m"⟩, "2025-06-01", [], []⟩
    (Or.inl ⟨"x", "bad", rfl, rfl⟩)

/-- C10: the private copies of `run_shell_command`, `write_csv_record`,
`write_jsonl_record` and the inline record-file-path construction in
src/main.rs behave identically — same return value, same bytes written, same
issued commands — to the public versions in src/exec.rs, src/storage.rs and
src/util.rs, on every input. -/
theorem private_copies_agree_with_modules :
    (∀ (plat : Platform) (child : ChildExec) (timeout : Option Nat),
      Main.run_shell_command plat child timeout = Exec.run_shell_command plat child timeout)
    ∧ (∀ (fs : FS) (path timestamp value : String) (exit_code : Int),
        Main.write_csv_record fs path timestamp value exit_code =
          Storage.write_csv_record fs path timestamp value exit_code)
    ∧ (∀ (fs : FS) (path timestamp value : String) (exit_code : Int),
        Main.write_jsonl_record fs path timestamp value exit_code =
          Storage.write_jsonl_record fs path timestamp value exit_code)
    ∧ (∀ (data_dir date fmt : String),
        Main.record_file_path data_dir date fmt = Util.record_file_path data_dir date fmt) :=
  ⟨fun _ _ _ => rfl, fun _ _ _ _ _ => rfl, fun _ _ _ _ _ => rfl, fun _ _ _ => rfl⟩
